import Mathlib

/-!
Shallow embedding of `examples/contrib/concurrent_client.py`: the concurrent
request-execution pool.  The embedding follows the source line by line:

* `WorkRequest` / `WorkResponse` are the two namedtuple data-transfer objects.
* `workerIteration` / `workerRun` / `clientWorkerProcess` embed
  `_client_worker_process` (one loop body, the fuelled loop, and the whole
  process including the `my_client = factory()` call before the loop).
* `managerIteration` / `managerRun` embed `_manager_worker_process`.
* `ClientState` with `execute`, `execute_silently` and `shutdown` embeds the
  `ConcurrentClient` facade; the queues are lists (unbounded FIFO channels),
  the `concurrent.futures.Future` objects are `FutureState` values stored in
  the registry, and `itertools.count()` is `countNext` over a `Nat`.

`execute` and `shutdown` additionally return the ordered list of externally
visible effects they perform, in source order, so that ordering properties
can be stated.  Type parameters: `α` requests, `ρ` client results, `ε`
exception values raised by `client.execute` (all opaque to the pool).
-/

/-- Python `WorkRequest = namedtuple('WorkRequest', 'request, work_id')`.
`work_id` is `None` (here `none`) for fire-and-forget submissions. -/
structure WorkRequest (α : Type) where
  request : α
  work_id : Option Nat
deriving DecidableEq

/-- The `response` field of a `WorkResponse`: a client result, a caught
client exception, or Python `None` (used by the shutdown sentinel). -/
inductive Payload (ρ ε : Type) where
  | resultVal (r : ρ)
  | excVal (e : ε)
  | noneVal
deriving DecidableEq

/-- Python `WorkResponse = namedtuple('WorkResponse', 'is_exception, work_id,
response')`.  Workers put `is_exception` = `False`/`True`; the shutdown
sentinel `WorkResponse(None, None, None)` has all three fields `None`. -/
structure WorkResponse (ρ ε : Type) where
  is_exception : Option Bool
  work_id : Option Nat
  response : Payload ρ ε
deriving DecidableEq

/-- Python truthiness of the `is_exception` field: `None` and `False` are
falsy, `True` is truthy. -/
def truthyOptBool : Option Bool → Bool
  | some b => b
  | none => false

/-- Python truthiness of a dequeued `WorkRequest` (the `if not workitem:`
guard): a 2-field namedtuple is a nonempty tuple, hence always truthy. -/
def truthyWorkRequest {α : Type} (_ : WorkRequest α) : Bool := true

/-- State of a `concurrent.futures.Future` as used by this module: pending
until `set_result` or `set_exception` succeeds exactly once.  The stored
value is the raw `response` field the manager passes in. -/
inductive FutureState (ρ ε : Type) where
  | unresolved
  | resolvedResult (v : Payload ρ ε)
  | resolvedFailure (v : Payload ρ ε)
deriving DecidableEq

/-- `Future.set_result(v)`: stores the value if the future is pending,
otherwise raises `InvalidStateError` (modelled as `Except.error ()`). -/
def setFutureResult {ρ ε : Type} (f : FutureState ρ ε) (v : Payload ρ ε) :
    Except Unit (FutureState ρ ε) :=
  match f with
  | .unresolved => .ok (.resolvedResult v)
  | _ => .error ()

/-- `Future.set_exception(v)`: marks the future failed if it is pending,
otherwise raises `InvalidStateError`. -/
def setFutureException {ρ ε : Type} (f : FutureState ρ ε) (v : Payload ρ ε) :
    Except Unit (FutureState ρ ε) :=
  match f with
  | .unresolved => .ok (.resolvedFailure v)
  | _ => .error ()

/-- The pending-future registry `self.futures`: a Python dict from integer
correlation token to future, embedded as an association list. -/
abbrev Registry (ρ ε : Type) := List (Nat × FutureState ρ ε)

/-- Dict lookup `reg[k]` / `reg.get(k)` for an integer key. -/
def regGet {ρ ε : Type} (reg : Registry ρ ε) (k : Nat) : Option (FutureState ρ ε) :=
  match reg with
  | [] => none
  | (k1, f1) :: rest => if k1 = k then some f1 else regGet rest k

/-- `my_futures.get(workitem.work_id, None)`: the key may be `None` (the
fire-and-forget tag or the sentinel); only integer keys are ever inserted,
so a `None` key never matches. -/
def regGetOpt {ρ ε : Type} (reg : Registry ρ ε) : Option Nat → Option (FutureState ρ ε)
  | none => none
  | some k => regGet reg k

/-- Dict assignment `reg[k] = f`: overwrite the entry if the key is present,
else add it. -/
def regAssign {ρ ε : Type} (reg : Registry ρ ε) (k : Nat) (f : FutureState ρ ε) :
    Registry ρ ε :=
  match reg with
  | [] => [(k, f)]
  | (k1, f1) :: rest => if k1 = k then (k, f) :: rest else (k1, f1) :: regAssign rest k f

/-- The part of the world one execution worker touches: the shared input
queue it dequeues from and the shared output queue it enqueues to (its own
appended responses). -/
structure WorkerState (α ρ ε : Type) where
  inputQueue : List (WorkRequest α)
  outputQueue : List (WorkResponse ρ ε)
deriving DecidableEq

/-- One pass of the `while` body of `_client_worker_process` (lines 91–107).
Empty input queue: `input_queue.get(timeout=1)` raises `Empty`, which the
blanket `except Exception: pass` swallows — nothing changes.  Otherwise the
item is dequeued (a `WorkRequest` is always truthy, so the `if not workitem`
guard never discards it), `my_client.execute` is invoked, and a tagged
`WorkResponse` is enqueued: success value on `.ok`, the caught exception as
a value on `.error` — the worker itself never terminates on either. -/
def workerIteration {α ρ ε : Type} (exec : α → Except ε ρ) (s : WorkerState α ρ ε) :
    WorkerState α ρ ε :=
  match s.inputQueue with
  | [] => s
  | workitem :: rest =>
    if truthyWorkRequest workitem then
      match exec workitem.request with
      | .ok result =>
        ⟨rest, s.outputQueue ++ [⟨some false, workitem.work_id, Payload.resultVal result⟩]⟩
      | .error exc =>
        ⟨rest, s.outputQueue ++ [⟨some true, workitem.work_id, Payload.excVal exc⟩]⟩
    else ⟨rest, s.outputQueue⟩

/-- The worker's `while not is_shutdown.is_set():` loop, fuelled.
`is_shutdown k` is the value the shutdown flag is observed to have at the
top of iteration `k` (the flag is set externally by `shutdown()`).  The
returned `Bool` is true iff the loop exited because the flag was observed
set; fuel running out leaves the loop still running (`false`). -/
def workerRun {α ρ ε : Type} (exec : α → Except ε ρ) (is_shutdown : Nat → Bool) :
    Nat → Nat → WorkerState α ρ ε → WorkerState α ρ ε × Bool
  | 0, _, s => (s, false)
  | fuel + 1, i, s =>
    if is_shutdown i then (s, true)
    else workerRun exec is_shutdown fuel (i + 1) (workerIteration exec s)

/-- How `_client_worker_process` ended. -/
inductive WorkerExit (ε : Type) where
  | shutdownSeen
  | fuelExhausted
  | startupFailure (e : ε)
deriving DecidableEq

/-- The whole of `_client_worker_process`: `my_client = factory()` runs
before the loop and outside every `try` block, so a factory exception
propagates and the worker terminates without dequeuing or enqueueing
anything.  The factory's outcome is embedded as an `Except` value and the
constructed client as its `execute` function. -/
def clientWorkerProcess {α ρ ε : Type} (factory : Except ε (α → Except ε ρ))
    (is_shutdown : Nat → Bool) (fuel : Nat) (s : WorkerState α ρ ε) :
    WorkerState α ρ ε × WorkerExit ε :=
  match factory with
  | .error e => (s, .startupFailure e)
  | .ok exec =>
    let r := workerRun exec is_shutdown fuel 0 s
    (r.1, if r.2 then .shutdownSeen else .fuelExhausted)

/-- The part of the world the delivery manager touches: the shared output
queue it dequeues from and the pending-future registry `my_futures`. -/
structure ManagerState (ρ ε : Type) where
  outputQueue : List (WorkResponse ρ ε)
  futures : Registry ρ ε
deriving DecidableEq

/-- How one pass of the manager's loop body ended (all of them continue the
loop; they only differ in what happened). -/
inductive ManagerOutcome where
  | blocked
  | discarded
  | errorLogged
deriving DecidableEq

/-- One pass of the `while` body of `_manager_worker_process` (lines
126–140).  `output_queue.get()` blocks unboundedly on an empty queue
(`blocked`).  Otherwise: look the item's `work_id` up in `my_futures`; if
the lookup yields `None` (a `None` id, or an integer id with no entry) the
item is discarded (`continue`) with the registry untouched.  If a future is
found, `set_exception` / `set_result` is called according to the truthiness
of `is_exception`; an `InvalidStateError` from an already-resolved future
jumps to the blanket `except`, which logs and continues, leaving the
registry unchanged.  On a successful resolution the future object is
mutated in place (visible through the registry entry), and then
`del futures[workitem.work_id]` executes: the name `futures` is a module
global that the module never defines (the parameter is `my_futures`), so
the statement raises `NameError`, which the blanket `except` logs — the
registry entry is never removed. -/
def managerIteration {ρ ε : Type} (s : ManagerState ρ ε) :
    ManagerState ρ ε × ManagerOutcome :=
  match s.outputQueue with
  | [] => (s, .blocked)
  | workitem :: rest =>
    match workitem.work_id with
    | none => ({ s with outputQueue := rest }, .discarded)
    | some wid =>
      match regGet s.futures wid with
      | none => ({ s with outputQueue := rest }, .discarded)
      | some my_future =>
        match (if truthyOptBool workitem.is_exception
               then setFutureException my_future workitem.response
               else setFutureResult my_future workitem.response) with
        | .error _ => ({ s with outputQueue := rest }, .errorLogged)
        | .ok resolved =>
          ({ outputQueue := rest, futures := regAssign s.futures wid resolved },
           .errorLogged)

/-- The manager's `while not is_shutdown.is_set():` loop, fuelled.  The flag
is checked only at the top of the loop; with an empty queue the unbounded
`get()` blocks and no further progress is possible in this model (`false`
also in that case — only an observed flag yields `true`). -/
def managerRun {ρ ε : Type} (is_shutdown : Nat → Bool) :
    Nat → Nat → ManagerState ρ ε → ManagerState ρ ε × Bool
  | 0, _, s => (s, false)
  | fuel + 1, i, s =>
    if is_shutdown i then (s, true)
    else
      match s.outputQueue with
      | [] => (s, false)
      | _ :: _ => managerRun is_shutdown fuel (i + 1) (managerIteration s).1

/-- `next()` on `itertools.count()`: yield the current value, advance by
one. -/
def countNext (c : Nat) : Nat × Nat := (c, c + 1)

/-- Counter value after `k` calls of `next` starting from
`itertools.count()` (initial value 0, as in `ConcurrentClient.__init__`). -/
def counterStateAfter : Nat → Nat
  | 0 => 0
  | k + 1 => (countNext (counterStateAfter k)).2

/-- The token returned by the `k`-th (0-based) call of `next(self.counter)`
on one `ConcurrentClient` instance. -/
def tokenAt (k : Nat) : Nat := (countNext (counterStateAfter k)).1

/-- State of the `ConcurrentClient` facade: the two shared channels, the
pending-future registry, the token counter, the shutdown flag, and the
spawned handles (`self.workers`, the manager included) each modelled by
whether it has terminated. -/
structure ClientState (α ρ ε : Type) where
  inputQueue : List (WorkRequest α)
  outputQueue : List (WorkResponse ρ ε)
  futures : Registry ρ ε
  counter : Nat
  is_shutdown : Bool
  workers : List Bool
deriving DecidableEq

/-- Externally visible effects of one `execute` call, in the order the
source performs them. -/
inductive ExecEffect (α : Type) where
  | putInput (w : WorkRequest α)
  | registerFuture (wid : Nat)
deriving DecidableEq

/-- `ConcurrentClient.execute` (lines 198–209):
`fut, work_id = Future(), next(self.counter)` then
`self.input_queue.put(WorkRequest(request, work_id))` (line 207) then
`self.futures[work_id] = fut` (line 208), returning the future.  Note the
source order: the put on the input queue precedes the registry insert.
Returns the new state, the allocated token (identifying the returned
future), and the effect trace in source order. -/
def execute {α ρ ε : Type} (s : ClientState α ρ ε) (request : α) :
    ClientState α ρ ε × Nat × List (ExecEffect α) :=
  let work_id := (countNext s.counter).1
  let s1 : ClientState α ρ ε := { s with counter := (countNext s.counter).2 }
  let s2 : ClientState α ρ ε :=
    { s1 with inputQueue := s1.inputQueue ++ [⟨request, some work_id⟩] }
  let s3 : ClientState α ρ ε :=
    { s2 with futures := regAssign s2.futures work_id FutureState.unresolved }
  (s3, work_id,
   [ExecEffect.putInput ⟨request, some work_id⟩, ExecEffect.registerFuture work_id])

/-- `ConcurrentClient.execute_silently` (lines 211–218): a single put of
`WorkRequest(request, None)` on the (unbounded, hence never blocking) input
queue; no token, no future, no return value. -/
def execute_silently {α ρ ε : Type} (s : ClientState α ρ ε) (request : α) :
    ClientState α ρ ε :=
  { s with inputQueue := s.inputQueue ++ [⟨request, none⟩] }

/-- Externally visible effects of one `shutdown` call, in source order. -/
inductive ShutEffect where
  | setSignal
  | putSentinel
  | joinWorker (i : Nat)
deriving DecidableEq

/-- The sentinel `WorkResponse(None, None, None)` pushed by `shutdown` to
wake the manager's unbounded `get()`. -/
def sentinelResponse {ρ ε : Type} : WorkResponse ρ ε := ⟨none, none, Payload.noneVal⟩

/-- `ConcurrentClient.shutdown` (lines 186–196): `self.is_shutdown.set()`,
then `self.output_queue.put(WorkResponse(None, None, None))`, then
`worker.join()` for every handle in `self.workers` (the delivery manager
was appended to that list first, so it is joined too).  `join` returns only
once its worker has terminated; the signal being set first guarantees every
loop exits (see the run lemmas), so the post-join handles are all
terminated. -/
def shutdown {α ρ ε : Type} (s : ClientState α ρ ε) : ClientState α ρ ε × List ShutEffect :=
  let s1 : ClientState α ρ ε := { s with is_shutdown := true }
  let s2 : ClientState α ρ ε := { s1 with outputQueue := s1.outputQueue ++ [sentinelResponse] }
  let s3 : ClientState α ρ ε := { s2 with workers := s2.workers.map (fun _ => true) }
  (s3, [ShutEffect.setSignal, ShutEffect.putSentinel] ++
       (List.range s2.workers.length).map ShutEffect.joinWorker)

/-- The ordering property asserted by the spec for `execute`: every
registry-registration effect precedes every input-channel put in the
effect trace. -/
def registrationPrecedesEnqueue {α : Type} (tr : List (ExecEffect α)) : Prop :=
  ∀ i j wid (w : WorkRequest α),
    tr.get? i = some (ExecEffect.registerFuture wid) →
    tr.get? j = some (ExecEffect.putInput w) → i < j

/-- A concrete idle pool state (no queued work, empty registry, counter at
its initial value, one manager handle and one worker handle, both live). -/
def initClientState : ClientState Nat Nat Nat :=
  { inputQueue := [], outputQueue := [], futures := [], counter := 0,
    is_shutdown := false, workers := [false, false] }

/-- A client whose `execute` raises on every request (exception value 9). -/
def execFail : Nat → Except Nat Nat := fun _ => Except.error 9

/-- A client whose `execute` doubles its request. -/
def execOk : Nat → Except Nat Nat := fun n => Except.ok (n * 2)

/-- Concrete manager state: one response queued for token 0, which is
registered and pending. -/
def c1State : ManagerState Nat Nat :=
  ⟨[⟨some false, some 0, Payload.resultVal 7⟩], [(0, FutureState.unresolved)]⟩

/-- Concrete manager state: one response queued for token 5, which has no
registry entry. -/
def mAbsent : ManagerState Nat Nat :=
  ⟨[⟨some false, some 5, Payload.resultVal 1⟩], []⟩

/-- Concrete manager state: one response queued for token 0, whose
registered future is already resolved. -/
def mResolved : ManagerState Nat Nat :=
  ⟨[⟨some false, some 0, Payload.resultVal 1⟩],
   [(0, FutureState.resolvedResult (Payload.resultVal 2))]⟩

/-- Concrete manager state: one fire-and-forget response (work_id `None`)
queued, with an unrelated pending entry in the registry. -/
def mFire : ManagerState Nat Nat :=
  ⟨[⟨some false, none, Payload.resultVal 6⟩], [(0, FutureState.unresolved)]⟩

/-- Concrete worker state: one queued request with token 0. -/
def wOne : WorkerState Nat Nat Nat := ⟨[⟨3, some 0⟩], []⟩

/-- Concrete worker state: empty queues. -/
def wEmpty : WorkerState Nat Nat Nat := ⟨[], []⟩

/-- Helper: a key just assigned into the registry is found with the
assigned value. -/
theorem regGet_regAssign {ρ ε : Type} (reg : Registry ρ ε) (k : Nat)
    (f : FutureState ρ ε) : regGet (regAssign reg k f) k = some f := by
  induction reg with
  | nil => simp [regAssign, regGet]
  | cons hd tl ih =>
    obtain ⟨k1, f1⟩ := hd
    by_cases h : k1 = k
    · simp [regAssign, regGet, h]
    · simp [regAssign, regGet, h, ih]

/-- Helper: the counter holds `k` after `k` calls of `next`. -/
theorem counterStateAfter_eq (k : Nat) : counterStateAfter k = k := by
  induction k with
  | zero => rfl
  | succ n ih => simp [counterStateAfter, countNext, ih]

/-- Helper: the `k`-th issued token is `k`. -/
theorem tokenAt_eq (k : Nat) : tokenAt k = k := by
  simp [tokenAt, countNext, counterStateAfter_eq]

/-- C1: claimed — for every dequeued response whose work_id has a
registered future, the manager resolves the future and then removes the
registry entry.  The code resolves the future but the removal is
`del futures[workitem.work_id]`, where `futures` is an undefined module
global (the parameter is `my_futures`), so a `NameError` is raised and
swallowed and the entry stays: at the concrete failing input (token 0
registered and pending, successful response for token 0) the future is
resolved with the result, the iteration ends in the logged-error branch,
and the registry still contains token 0. -/
theorem manager_keeps_entry_after_resolving :
    managerIteration c1State =
      ({ outputQueue := [],
         futures := [(0, FutureState.resolvedResult (Payload.resultVal 7))] },
       ManagerOutcome.errorLogged)
  ∧ regGet (managerIteration c1State).1.futures 0 ≠ none := by
  constructor
  · rfl
  · decide

/-- C2 counterexample: claimed — `execute` registers the future before the
request becomes visible on the input channel.  In the source the
`input_queue.put` (line 207) precedes `self.futures[work_id] = fut`
(line 208): on the concrete idle state, the effect trace of
`execute initClientState 5` has the put at index 0 and the registration at
index 1, so the claimed ordering is false. -/
theorem execute_registration_order_counterexample :
    ¬ registrationPrecedesEnqueue (execute initClientState 5).2.2 := by
  intro h
  have h10 := h 1 0 0 ⟨5, some 0⟩ rfl rfl
  omega

/-- C2 amended: `execute` allocates a fresh correlation token (the current
counter value; the counter advances), enqueues `WorkRequest{request,
token}` on the input channel, and then registers a fresh unresolved future
under that token; it returns the token's future without blocking (the
operation is total), and the token is present in the registry at the moment
`execute` returns. -/
theorem execute_enqueue_then_register {α ρ ε : Type} (s : ClientState α ρ ε)
    (request : α) :
    (execute s request).2.1 = s.counter
  ∧ (execute s request).1.counter = s.counter + 1
  ∧ (execute s request).1.inputQueue = s.inputQueue ++ [⟨request, some s.counter⟩]
  ∧ (execute s request).1.futures = regAssign s.futures s.counter FutureState.unresolved
  ∧ regGet (execute s request).1.futures s.counter = some FutureState.unresolved
  ∧ (execute s request).2.2 =
      [ExecEffect.putInput ⟨request, some s.counter⟩,
       ExecEffect.registerFuture s.counter] := by
  refine ⟨rfl, rfl, rfl, rfl, ?_, rfl⟩
  exact regGet_regAssign s.futures s.counter FutureState.unresolved

/-- C6: for every pair of distinct calls to the correlation token generator
(`next(self.counter)` on `itertools.count()`) during one ConcurrentClient
instance's lifetime, the returned tokens are distinct, and later calls
return strictly greater tokens than earlier calls. -/
theorem counter_tokens_monotone_distinct (i j : Nat) :
    (i < j → tokenAt i < tokenAt j) ∧ (i ≠ j → tokenAt i ≠ tokenAt j) := by
  have hi := tokenAt_eq i
  have hj := tokenAt_eq j
  constructor
  · intro h
    omega
  · intro h
    omega

/-- C6 witness: the first two tokens issued are 0 and 1: strictly
increasing and distinct. -/
theorem counter_tokens_monotone_distinct_witness :
    tokenAt 0 < tokenAt 1 ∧ tokenAt 0 ≠ tokenAt 1 :=
  ⟨(counter_tokens_monotone_distinct 0 1).1 (by decide),
   (counter_tokens_monotone_distinct 0 1).2 (by decide)⟩

/-- C3: for every dequeued work item on which `client.execute` raises, the
worker captures the exception as a value and enqueues
`WorkResponse(is_exception=True, work_id, exception)` on the output channel
and its loop continues (the iteration is just a state update); and the
worker's loop exits only when the shutdown signal is observed — if
`workerRun` reports an exit, the shutdown flag was observed set at some
iteration. -/
theorem worker_failure_reported_loop_persists {α ρ ε : Type} :
    (∀ (exec : α → Except ε ρ) (item : WorkRequest α) rest outs (e : ε),
       exec item.request = Except.error e →
       workerIteration exec ⟨item :: rest, outs⟩ =
         ⟨rest, outs ++ [⟨some true, item.work_id, Payload.excVal e⟩]⟩)
  ∧ (∀ (exec : α → Except ε ρ) (is_shutdown : Nat → Bool) fuel i s,
       (workerRun exec is_shutdown fuel i s).2 = true →
       ∃ k, is_shutdown k = true) := by
  constructor
  · intro exec item rest outs e h
    simp [workerIteration, truthyWorkRequest, h]
  · intro exec is_shutdown fuel
    induction fuel with
    | zero =>
      intro i s h
      simp [workerRun] at h
    | succ n ih =>
      intro i s h
      by_cases hs : is_shutdown i
      · exact ⟨i, hs⟩
      · simp [workerRun, hs] at h
        exact ih _ _ h

/-- C3 witness: the always-failing client on a queued request yields the
tagged failure response and the advanced queue; and a run that exits did
observe the shutdown flag. -/
theorem worker_failure_reported_loop_persists_witness :
    workerIteration execFail wOne = ⟨[], [⟨some true, some 0, Payload.excVal 9⟩]⟩
  ∧ ∃ k, (fun (_ : Nat) => true) k = true := by
  constructor
  · exact worker_failure_reported_loop_persists.1 execFail ⟨3, some 0⟩ [] [] 9 rfl
  · exact worker_failure_reported_loop_persists.2 execFail (fun _ => true) 1 0 wEmpty rfl

/-- C5: for every dequeued response item, (a) if its work_id is absent from
the registry (a `None` id or an unregistered integer id) the item is
discarded as a no-op: only the queue advances, the registry and every
future in it are unchanged; (b) if resolving raises (the registered future
is already resolved, so `set_result`/`set_exception` raise
`InvalidStateError`) the error is logged and skipped, again leaving the
registry unchanged; and (c) the manager never stops because of one
anomalous item: whenever the shutdown flag is unset and the queue nonempty
the loop proceeds to the next iteration on the iteration's result,
whatever its outcome was. -/
theorem manager_discard_and_error_skip {ρ ε : Type} :
    (∀ (s : ManagerState ρ ε) item rest, s.outputQueue = item :: rest →
       regGetOpt s.futures item.work_id = none →
       managerIteration s = ({ s with outputQueue := rest }, ManagerOutcome.discarded))
  ∧ (∀ (s : ManagerState ρ ε) item rest wid fut, s.outputQueue = item :: rest →
       item.work_id = some wid → regGet s.futures wid = some fut →
       fut ≠ FutureState.unresolved →
       managerIteration s = ({ s with outputQueue := rest }, ManagerOutcome.errorLogged))
  ∧ (∀ (is_shutdown : Nat → Bool) fuel i (s : ManagerState ρ ε),
       is_shutdown i = false → s.outputQueue ≠ [] →
       managerRun is_shutdown (fuel + 1) i s =
         managerRun is_shutdown fuel (i + 1) (managerIteration s).1) := by
  refine ⟨?_, ?_, ?_⟩
  · intro s item rest hq hget
    obtain ⟨q, futs⟩ := s
    simp only at hq
    subst hq
    match hw : item.work_id with
    | none => simp [managerIteration, hw]
    | some wid =>
      simp only [regGetOpt, hw] at hget
      simp [managerIteration, hw, hget]
  · intro s item rest wid fut hq hw hget hres
    obtain ⟨q, futs⟩ := s
    simp only at hq
    subst hq
    match fut, hres with
    | FutureState.resolvedResult v, _ =>
      match hb : truthyOptBool item.is_exception with
      | true => simp [managerIteration, hw, hget, hb, setFutureException]
      | false => simp [managerIteration, hw, hget, hb, setFutureResult]
    | FutureState.resolvedFailure v, _ =>
      match hb : truthyOptBool item.is_exception with
      | true => simp [managerIteration, hw, hget, hb, setFutureException]
      | false => simp [managerIteration, hw, hget, hb, setFutureResult]
  · intro is_shutdown fuel i s hflag hq
    match hv : s.outputQueue with
    | [] => exact absurd hv hq
    | item :: rest =>
      obtain ⟨q, futs⟩ := s
      simp only at hv
      subst hv
      simp [managerRun, hflag]

/-- C5 witness: the response for the unregistered token 5 is discarded with
the empty registry untouched; the response for the already-resolved token 0
ends in the logged-error branch with the registry untouched; and a
one-fuel run with the flag unset steps to the iteration's result. -/
theorem manager_discard_and_error_skip_witness :
    managerIteration mAbsent = ({ mAbsent with outputQueue := [] }, ManagerOutcome.discarded)
  ∧ managerIteration mResolved =
      ({ mResolved with outputQueue := [] }, ManagerOutcome.errorLogged)
  ∧ managerRun (fun _ => false) 1 0 mAbsent =
      managerRun (fun _ => false) 0 1 (managerIteration mAbsent).1 := by
  refine ⟨?_, ?_, ?_⟩
  · exact manager_discard_and_error_skip.1 mAbsent
      ⟨some false, some 5, Payload.resultVal 1⟩ [] rfl rfl
  · exact manager_discard_and_error_skip.2.1 mResolved
      ⟨some false, some 0, Payload.resultVal 1⟩ [] 0
      (FutureState.resolvedResult (Payload.resultVal 2)) rfl rfl rfl (by decide)
  · exact manager_discard_and_error_skip.2.2 (fun _ => false) 0 0 mAbsent rfl (by decide)

/-- C9: a fire-and-forget request (work_id `None`) is still answered by the
worker with a `WorkResponse` carrying work_id `None`, tagged success or
failure according to the client's outcome; and the manager, dequeuing a
response whose work_id is `None`, discards it with the registry (and hence
every registered future) unchanged. -/
theorem fire_and_forget_response_discarded {α ρ ε : Type} :
    (∀ (exec : α → Except ε ρ) (req : α) rest outs (r : ρ), exec req = Except.ok r →
       workerIteration exec ⟨⟨req, none⟩ :: rest, outs⟩ =
         ⟨rest, outs ++ [⟨some false, none, Payload.resultVal r⟩]⟩)
  ∧ (∀ (exec : α → Except ε ρ) (req : α) rest outs (e : ε), exec req = Except.error e →
       workerIteration exec ⟨⟨req, none⟩ :: rest, outs⟩ =
         ⟨rest, outs ++ [⟨some true, none, Payload.excVal e⟩]⟩)
  ∧ (∀ (s : ManagerState ρ ε) item rest, s.outputQueue = item :: rest →
       item.work_id = none →
       managerIteration s =
         ({ s with outputQueue := rest }, ManagerOutcome.discarded)) := by
  refine ⟨?_, ?_, ?_⟩
  · intro exec req rest outs r h
    simp [workerIteration, truthyWorkRequest, h]
  · intro exec req rest outs e h
    simp [workerIteration, truthyWorkRequest, h]
  · intro s item rest hq hw
    obtain ⟨q, futs⟩ := s
    simp only at hq
    subst hq
    simp [managerIteration, hw]

/-- C9 witness: the doubling client answers the fire-and-forget request 3
with a success response carrying work_id `None`; the failing client answers
with a failure response carrying work_id `None`; the manager discards the
queued `None`-id response leaving the registry entry for token 0 intact. -/
theorem fire_and_forget_response_discarded_witness :
    workerIteration execOk ⟨[⟨3, none⟩], []⟩ =
      ⟨[], [⟨some false, none, Payload.resultVal 6⟩]⟩
  ∧ workerIteration execFail ⟨[⟨3, none⟩], []⟩ =
      ⟨[], [⟨some true, none, Payload.excVal 9⟩]⟩
  ∧ managerIteration mFire = ({ mFire with outputQueue := [] }, ManagerOutcome.discarded) := by
  refine ⟨?_, ?_, ?_⟩
  · exact fire_and_forget_response_discarded.1 execOk 3 [] [] 6 rfl
  · exact fire_and_forget_response_discarded.2.1 execFail 3 [] [] 9 rfl
  · exact (@fire_and_forget_response_discarded Nat Nat Nat).2.2 mFire
      ⟨some false, none, Payload.resultVal 6⟩ [] rfl rfl

/-- Helper: a list of join effects contains no sentinel put. -/
theorem count_putSentinel_map_joinWorker (l : List Nat) :
    (l.map ShutEffect.joinWorker).count ShutEffect.putSentinel = 0 := by
  induction l with
  | nil => rfl
  | cons hd tl ih => simp [List.count_cons, ih]

/-- Helper: re-marking already-terminated handles changes nothing. -/
theorem map_const_true_idem (l : List Bool) :
    (l.map (fun _ => true)).map (fun _ => true) = l.map (fun _ => true) := by
  induction l with
  | nil => rfl
  | cons hd tl ih => simp [List.map_cons, ih]

/-- C4: `shutdown()` performs, in order: set the shutdown signal, push
exactly one sentinel `WorkResponse` onto the output channel, then join
every handle in `self.workers` (the Delivery Manager was appended to that
list first, so it is joined along with every spawned worker); the effect
trace has the signal first, the single sentinel second and the joins last,
the sentinel occurs exactly once, and after the call every handle has
terminated (join returns only then).  No further resolutions occur after it
returns: with the shutdown flag set, both the worker loop and the manager
loop exit at the top of their next pass without touching any state. -/
theorem shutdown_sequence {α ρ ε : Type} (s : ClientState α ρ ε) :
    (shutdown s).1 = { s with is_shutdown := true,
                              outputQueue := s.outputQueue ++ [sentinelResponse],
                              workers := s.workers.map (fun _ => true) }
  ∧ (shutdown s).2 = [ShutEffect.setSignal, ShutEffect.putSentinel] ++
      (List.range s.workers.length).map ShutEffect.joinWorker
  ∧ (shutdown s).2.count ShutEffect.putSentinel = 1
  ∧ (∀ b ∈ (shutdown s).1.workers, b = true)
  ∧ (∀ (exec : α → Except ε ρ) fuel i (ws : WorkerState α ρ ε),
       workerRun exec (fun _ => true) (fuel + 1) i ws = (ws, true))
  ∧ (∀ fuel i (ms : ManagerState ρ ε),
       managerRun (fun _ => true) (fuel + 1) i ms = (ms, true)) := by
  refine ⟨rfl, rfl, ?_, ?_, ?_, ?_⟩
  · simp [shutdown, List.count_append, count_putSentinel_map_joinWorker, List.count_cons]
  · intro b hb
    simp [shutdown] at hb
    exact hb.2
  · intro exec fuel i ws
    simp [workerRun]
  · intro fuel i ms
    simp [managerRun]

/-- C7: `execute_silently(request)` enqueues `WorkRequest{request,
work_id=None}` on the (unbounded, hence never blocking) input channel,
returns no handle, and leaves every other field of the ConcurrentClient
state — the pending-future registry, the output channel, the counter, the
shutdown flag, and the worker handles — unchanged. -/
theorem execute_silently_frame {α ρ ε : Type} (s : ClientState α ρ ε) (request : α) :
    execute_silently s request =
      { s with inputQueue := s.inputQueue ++ [⟨request, none⟩] }
  ∧ (execute_silently s request).futures = s.futures
  ∧ (execute_silently s request).outputQueue = s.outputQueue
  ∧ (execute_silently s request).counter = s.counter
  ∧ (execute_silently s request).is_shutdown = s.is_shutdown
  ∧ (execute_silently s request).workers = s.workers
  ∧ (execute_silently s request).inputQueue = s.inputQueue ++ [⟨request, none⟩] :=
  ⟨rfl, rfl, rfl, rfl, rfl, rfl, rfl⟩

/-- C8: a second `shutdown()` after the first has returned neither hangs
nor raises (in the embedding it is a total function applied to the first
call's result): setting the already-set flag leaves it set, the join of the
already-terminated handles leaves them exactly as they were, and the only
change is one more sentinel pushed onto the output channel. -/
theorem shutdown_second_call {α ρ ε : Type} (s : ClientState α ρ ε) :
    (shutdown (shutdown s).1).1 =
      { (shutdown s).1 with
        outputQueue := (shutdown s).1.outputQueue ++ [sentinelResponse] }
  ∧ (shutdown (shutdown s).1).1.is_shutdown = true
  ∧ (shutdown (shutdown s).1).1.workers = (shutdown s).1.workers := by
  refine ⟨?_, rfl, ?_⟩
  · obtain ⟨iq, oq, futs, c, sd, ws⟩ := s
    simp [shutdown, map_const_true_idem]
  · obtain ⟨iq, oq, futs, c, sd, ws⟩ := s
    simp [shutdown, map_const_true_idem]

/-- C10: if the client factory raises when a worker invokes it at startup
(`my_client = factory()` stands before the loop and outside every `try`),
the worker terminates with that startup failure before dequeuing or
processing any request: the input queue is untouched and the worker has
enqueued no WorkResponse. -/
theorem factory_failure_stops_worker_before_loop {α ρ ε : Type}
    (e : ε) (is_shutdown : Nat → Bool) (fuel : Nat) (s : WorkerState α ρ ε) :
    clientWorkerProcess (Except.error e) is_shutdown fuel s =
      (s, WorkerExit.startupFailure e)
  ∧ (clientWorkerProcess (Except.error e) is_shutdown fuel s).1.inputQueue = s.inputQueue
  ∧ (clientWorkerProcess (Except.error e) is_shutdown fuel s).1.outputQueue = s.outputQueue :=
  ⟨rfl, rfl, rfl⟩
